import Mathlib

/-!
Verification development for the Tempus preview-environment lifecycle
orchestrator (FastAPI backend under `backend/app` plus the cleanup Lambda
under `lambda/cleanup`).

The Python code is shallowly embedded as pure Lean functions:
* timestamps are modelled as integers (`Int`), with hours as the unit, so
  `expires_at = now + ttl_hours` is integer addition;
* provider (boto3) calls are modelled by explicit outcome parameters
  (`PRes`): a call either succeeds or raises a `ClientError` carrying an
  error code string;
* the mutable world (DynamoDB table, EventBridge rules, ECS/ALB
  resources) is passed as explicit state and returned updated;
* Python dict truthiness is modelled explicitly: a missing key, `None`,
  an empty dict and the empty string are all falsy.
-/

namespace Tempus

/-- Result of a single provider (boto3) call: success, or a `ClientError`
carrying the provider error code. -/
inductive PRes where
  | ok
  | clientError (code : String)
deriving DecidableEq, Repr

/-- Workload status as consumed by `_build_status` (preview.py:56-73):
`none` models a falsy `service_status` dict, `some none` a dict whose
`status` key is missing or `None`, `some (some s)` a dict with status
string `s`. -/
abbrev SvcStatus := Option (Option String)

/-- Target-group health as consumed by `_build_status`: `none` models a
falsy `target_group_health` dict, `some none` a dict without a `summary`
value, `some (some s)` a dict whose `summary` is the string `s`. -/
abbrev TgHealth := Option (Option String)

/-- Embeds the `creating` test of `_build_status` (preview.py:67):
`not service_status or service_status.get("status") in (None, "DRAINING", "INACTIVE")`. -/
def svcCreating : SvcStatus → Bool
  | none => true
  | some none => true
  | some (some s) => s == "DRAINING" || s == "INACTIVE"

/-- Embeds the `degraded` test of `_build_status` (preview.py:69-72):
`if target_group_health:` then `summary = target_group_health.get("summary")`
and `if summary and summary != "healthy"`.  Note the Python truthiness
check on `summary`: an empty-string summary does NOT count as degraded. -/
def tgDegraded : TgHealth → Bool
  | some (some s) => s != "" && s != "healthy"
  | _ => false

/-- Embeds `_build_status` (preview.py:56-73). `expires` is the parsed
`expires_at`, `now` the current instant. -/
def build_status (now expires : Int) (svc : SvcStatus) (tg : TgHealth) : String :=
  if expires ≤ now then "expired"
  else if svcCreating svc then "creating"
  else if tgDegraded tg then "degraded"
  else "active"

/-- Degraded condition exactly as the specification words it ("pool health
summary is present and not \"healthy\"", spec section 4.2), for comparison
with the code's `tgDegraded`. -/
def specDegraded : TgHealth → Bool
  | some (some s) => s != "healthy"
  | _ => false

/-- Status derivation following the specification's words (spec section
4.2), differing from `build_status` only in the degraded test. -/
def spec_status (now expires : Int) (svc : SvcStatus) (tg : TgHealth) : String :=
  if expires ≤ now then "expired"
  else if svcCreating svc then "creating"
  else if specDegraded tg then "degraded"
  else "active"

/-- Python truthiness of an optional string (missing key, `None` and `""`
are falsy). -/
def truthy : Option String → Bool
  | none => false
  | some s => s != ""

/-- Persisted metadata record (DynamoDB item, dynamodb_service.py:44-60).
`store_preview_metadata` always writes the first three references and
`expires_at`; `eventbridge_rule_name` is written only when truthy.  The
fields are `Option` so that the cleanup saga can be run against partial
records, as the spec requires. -/
structure Record where
  service_arn : Option String
  target_group_arn : Option String
  listener_rule_arn : Option String
  eventbridge_rule_name : Option String
  expires_at : Int
deriving DecidableEq, Repr

/-! ### Cleanup Lambda (lambda/cleanup/cleanup.py) -/

/-- Environment for `delete_ecs_service` (cleanup.py:163-202): outcome of
`update_service`, outcome of `delete_service`, and the running count the
`describe_services` poll observes at each elapsed wait time. -/
structure EcsDelEnv where
  updateRes : PRes
  running : Nat → Nat
  deleteRes : PRes

/-- Observable outcome of `delete_ecs_service`: total seconds waited in the
drain loop, whether the final `delete_service` call was issued, and the
normalized result. -/
structure EcsDelOut where
  waited : Nat
  deleteAttempted : Bool
  result : Except String Unit
deriving Repr

/-- Drain-wait loop of `delete_ecs_service` (cleanup.py:178-189):
`while wait_time < max_wait: poll; if running == 0: break; sleep(10);
wait_time += 10`, with `max_wait = 300`.  The fuel argument counts the
remaining iterations (300 / 10 = 30); the function returns the final
`wait_time`. -/
def drainLoop (running : Nat → Nat) : Nat → Nat → Nat
  | waitTime, 0 => waitTime
  | waitTime, fuel + 1 =>
    if running waitTime = 0 then waitTime
    else drainLoop running (waitTime + 10) fuel

/-- Embeds `delete_ecs_service` (cleanup.py:163-202): set desired count to
zero, drain-wait (bounded, 10 s interval, 300 s cap), then force delete;
a `ServiceNotFoundException` from either call is normalized to success. -/
def delete_ecs_service (env : EcsDelEnv) : EcsDelOut :=
  match env.updateRes with
  | .clientError c =>
    if c = "ServiceNotFoundException" then ⟨0, false, .ok ()⟩
    else ⟨0, false, .error c⟩
  | .ok =>
    let w := drainLoop env.running 0 30
    match env.deleteRes with
    | .ok => ⟨w, true, .ok ()⟩
    | .clientError c =>
      if c = "ServiceNotFoundException" then ⟨w, true, .ok ()⟩
      else ⟨w, true, .error c⟩

/-- Embeds `delete_listener_rule` (cleanup.py:205-214): `RuleNotFound` is
normalized to success, any other `ClientError` propagates. -/
def delete_listener_rule (r : PRes) : Except String Unit :=
  match r with
  | .ok => .ok ()
  | .clientError c => if c = "RuleNotFound" then .ok () else .error c

/-- Embeds `delete_target_group` (cleanup.py:217-226): `TargetGroupNotFound`
is normalized to success. -/
def delete_target_group (r : PRes) : Except String Unit :=
  match r with
  | .ok => .ok ()
  | .clientError c => if c = "TargetGroupNotFound" then .ok () else .error c

/-- Error codes normalized to success by `delete_eventbridge_rule`
(cleanup.py:256-259). -/
def ebNormalize (c : String) : Bool :=
  c = "ResourceNotFoundException" || c = "ValidationException"

/-- Environment for `delete_eventbridge_rule` (cleanup.py:229-260): outcomes
of `list_targets_by_rule`, `remove_targets` and `delete_rule`.  The inner
`remove_permission` call swallows every `ClientError` (cleanup.py:248-251)
and so never influences the result. -/
structure EbDelEnv where
  listTargetsRes : PRes
  removeTargetsRes : PRes
  deleteRuleRes : PRes

/-- Embeds `delete_eventbridge_rule` (cleanup.py:229-260): the body's
provider calls run in order inside one try block whose handler normalizes
`ResourceNotFoundException` and `ValidationException` to success. -/
def delete_eventbridge_rule (env : EbDelEnv) : Except String Unit :=
  match env.listTargetsRes with
  | .clientError c => if ebNormalize c then .ok () else .error c
  | .ok =>
    match env.removeTargetsRes with
    | .clientError c => if ebNormalize c then .ok () else .error c
    | .ok =>
      match env.deleteRuleRes with
      | .clientError c => if ebNormalize c then .ok () else .error c
      | .ok => .ok ()

/-- Embeds `delete_dynamodb_record` (cleanup.py:263-273): every
`ClientError` is swallowed, so the call never fails; the first component
records whether the item was actually removed. -/
def delete_dynamodb_record (r : PRes) : Bool × Except String Unit :=
  match r with
  | .ok => (true, .ok ())
  | .clientError _ => (false, .ok ())

/-- Steps of the cleanup saga, for recording which were attempted. -/
inductive Step where
  | metaRead
  | ecsDelete
  | ruleDelete
  | tgDelete
  | ebDelete
  | ddbDelete
deriving DecidableEq, Repr

/-- Environment of one `handler` invocation (cleanup.py:29-135): the state
of the metadata record for the event's preview id, the outcome of the
DynamoDB read (`get_preview_metadata` re-raises `ClientError`,
cleanup.py:158-160), and the provider outcomes for each teardown step. -/
structure CleanupEnv where
  metadata : Option Record
  metaReadRes : PRes
  ecs : EcsDelEnv
  ruleRes : PRes
  tgRes : PRes
  eb : EbDelEnv
  ddbRes : PRes

/-- Structured outcome of the cleanup `handler`: HTTP-style status code of
the returned dict, the collected per-step error messages, the steps that
were attempted, and the metadata record after the run. -/
structure CleanupOutcome where
  statusCode : Nat
  errors : List String
  trace : List Step
  postMeta : Option Record

/-- Embeds the cleanup Lambda `handler` (cleanup.py:29-135).  The argument
`previewId` is `event.get("preview_id")` (`none` models a missing key);
a falsy id returns 400 before any read.  An absent record returns 200
("may already be cleaned up").  Each teardown step runs only when its
reference is truthy in the record, is individually caught, and appends to
`errors` on failure; the DynamoDB delete always runs; a non-empty error
list yields 207, otherwise 200.  The outer handler catches everything
else (here: a failing metadata read) and returns 500. -/
def handler (previewId : Option String) (env : CleanupEnv) : CleanupOutcome :=
  match previewId with
  | none => ⟨400, [], [], env.metadata⟩
  | some pid =>
    if pid = "" then ⟨400, [], [], env.metadata⟩
    else
      match env.metaReadRes with
      | .clientError c => ⟨500, [c], [Step.metaRead], env.metadata⟩
      | .ok =>
        match env.metadata with
        | none => ⟨200, [], [Step.metaRead], none⟩
        | some md =>
          let s1 :=
            if truthy md.service_arn then
              match (delete_ecs_service env.ecs).result with
              | .ok () => (([] : List String), [Step.ecsDelete])
              | .error c => (["ECS service deletion failed: " ++ c], [Step.ecsDelete])
            else ([], [])
          let s2 :=
            if truthy md.listener_rule_arn then
              match delete_listener_rule env.ruleRes with
              | .ok () => (([] : List String), [Step.ruleDelete])
              | .error c => (["Listener rule deletion failed: " ++ c], [Step.ruleDelete])
            else ([], [])
          let s3 :=
            if truthy md.target_group_arn then
              match delete_target_group env.tgRes with
              | .ok () => (([] : List String), [Step.tgDelete])
              | .error c => (["Target group deletion failed: " ++ c], [Step.tgDelete])
            else ([], [])
          let ebName :=
            match md.eventbridge_rule_name with
            | none => "tempus-cleanup-" ++ pid
            | some s => s
          let s4 :=
            if ebName ≠ "" then
              match delete_eventbridge_rule env.eb with
              | .ok () => (([] : List String), [Step.ebDelete])
              | .error c => (["EventBridge rule deletion failed: " ++ c], [Step.ebDelete])
            else ([], [])
          let del := delete_dynamodb_record env.ddbRes
          let s5 :=
            match del.2 with
            | .ok () => (([] : List String), [Step.ddbDelete])
            | .error c => (["DynamoDB record deletion failed: " ++ c], [Step.ddbDelete])
          let errs := s1.1 ++ s2.1 ++ s3.1 ++ s4.1 ++ s5.1
          let tr := Step.metaRead :: (s1.2 ++ s2.2 ++ s3.2 ++ s4.2 ++ s5.2)
          let post := if del.1 then none else some md
          ⟨if errs.isEmpty then 200 else 207, errs, tr, post⟩

/-! ### Listener-rule priority allocation (ecs_service.py:212-259) -/

/-- Initial rule priority, `abs(hash(preview_id)) % 49000 + 1000`
(ecs_service.py:221); `h` is the non-negative hash value. -/
def initPriority (h : Nat) : Nat := h % 49000 + 1000

/-- Priority perturbation on a `PriorityInUse` conflict,
`(priority + 1) % 49000 + 1000` (ecs_service.py:249). -/
def perturb (p : Nat) : Nat := (p + 1) % 49000 + 1000

/-- Retry loop of `_add_listener_rule` (ecs_service.py:224-251): attempt
`create_rule` with the current priority; on a `PriorityInUse` conflict
perturb and retry while attempts remain, re-raising the conflict on the
last attempt.  `taken p = true` means the provider reports priority `p`
as already in use; the fuel argument is the number of attempts left. -/
def addLoop (taken : Nat → Bool) : Nat → Nat → Except String Nat
  | _, 0 => .error "PriorityInUse"
  | p, fuel + 1 =>
    if taken p then addLoop taken (perturb p) fuel
    else .ok p

/-- Embeds `_add_listener_rule` (ecs_service.py:212-259) with
`max_retries = 10`; returns the priority the rule was created at. -/
def _add_listener_rule (taken : Nat → Bool) (h : Nat) : Except String Nat :=
  addLoop taken (initPriority h) 10

/-! ### Create saga (preview.py:116-182, ecs_service.py:51-101) -/

/-- Which external resources of one preview currently exist, plus its
metadata record; the resource state threaded through the create saga. -/
structure Resources where
  targetGroup : Bool
  service : Bool
  listenerRule : Bool
  scheduleRule : Bool
  metadata : Option Record
deriving DecidableEq, Repr

/-- State with no resources and no record. -/
def emptyResources : Resources := ⟨false, false, false, false, none⟩

/-- Fault-injection environment for one `create` call: whether each
provisioning step raises, the set of listener-rule priorities in use, and
the hash value of the preview id. -/
structure CreateEnv where
  tgFault : Bool
  taskDefFault : Bool
  serviceFault : Bool
  taken : Nat → Bool
  hashVal : Nat
  scheduleFault : Bool
  metadataFault : Bool

/-- Embeds `ECSService._cleanup_on_failure` (ecs_service.py:261-297):
delete the listener rule when its arn is known, then drain and force
delete the service (`ClientError` swallowed, so an absent service is a
no-op), then delete the target group when its arn is known. -/
def _cleanup_on_failure (r : Resources) (tgKnown ruleKnown : Bool) : Resources :=
  let r1 := if ruleKnown then { r with listenerRule := false } else r
  let r2 := { r1 with service := false }
  if tgKnown then { r2 with targetGroup := false } else r2

/-- Embeds `ECSService.create_preview_service` (ecs_service.py:51-101):
create target group, register task definition, create service, add the
listener rule; on any failure call `_cleanup_on_failure` with whichever
of `target_group_arn` / `listener_rule_arn` are bound in `locals()` and
re-raise.  Returns `(service_arn, target_group_arn, listener_rule_arn)`
and the resulting resource state. -/
def create_preview_service (env : CreateEnv) (pid : String) (r : Resources) :
    Except String (String × String × String) × Resources :=
  if env.tgFault then
    (.error "CreateTargetGroupFailed", _cleanup_on_failure r false false)
  else
    let r1 := { r with targetGroup := true }
    if env.taskDefFault then
      (.error "RegisterTaskDefinitionFailed", _cleanup_on_failure r1 true false)
    else if env.serviceFault then
      (.error "CreateServiceFailed", _cleanup_on_failure r1 true false)
    else
      let r2 := { r1 with service := true }
      match _add_listener_rule env.taken env.hashVal with
      | .error c => (.error c, _cleanup_on_failure r2 true false)
      | .ok _ =>
        let r3 := { r2 with listenerRule := true }
        (.ok ("svc-" ++ pid, "tg-" ++ pid, "rule-" ++ pid), r3)

/-- Embeds `ECSService.get_service_url` (ecs_service.py:299-310). -/
def get_service_url (albDnsName pid : String) : String :=
  "http://" ++ albDnsName ++ "/preview-" ++ pid

/-- Embeds the `create_preview` route (preview.py:116-182).  Steps after
`create_preview_service`: schedule the cleanup rule, store the metadata
record (all four references plus `expires_at = now + ttl`), compute the
URL and return.  On any exception the handler deletes the EventBridge
rule and the metadata record (each best-effort) and returns a 500 whose
detail wraps the original failure; it does not touch the ECS/ALB
resources itself.  The result pairs the response
(`preview_id`, `preview_url`, `expires_at`) or error with the final
resource state. -/
def create_preview (env : CreateEnv) (pid albDnsName : String) (now ttl : Int) :
    Except String (String × String × Int) × Resources :=
  let expires := now + ttl
  match create_preview_service env pid emptyResources with
  | (.error c, r) =>
    let r1 := { r with scheduleRule := false, metadata := none }
    (.error ("Failed to create preview environment: " ++ c), r1)
  | (.ok _, r) =>
    if env.scheduleFault then
      let r1 := { r with scheduleRule := false, metadata := none }
      (.error "Failed to create preview environment: ScheduleCleanupFailed", r1)
    else
      let r1 := { r with scheduleRule := true }
      if env.metadataFault then
        let r2 := { r1 with scheduleRule := false, metadata := none }
        (.error "Failed to create preview environment: StoreMetadataFailed", r2)
      else
        let md : Record :=
          ⟨some ("svc-" ++ pid), some ("tg-" ++ pid), some ("rule-" ++ pid),
            some ("tempus-cleanup-" ++ pid), expires⟩
        let r2 := { r1 with metadata := some md }
        (.ok (pid, get_service_url albDnsName pid, expires), r2)

/-! ### Orchestrator state and the delete / extend / status routes -/

/-- The DynamoDB table, keyed by preview id. -/
abbrev Store := String → Option Record

/-- The EventBridge schedule rules: rule name to the scheduled invocation,
which carries the preview id of its payload (`Input` of `put_targets`,
eventbridge_service.py:65-74) and the fire time. -/
abbrev Schedules := String → Option (String × Int)

/-- Embeds `DynamoDBService.update_expires_at` (dynamodb_service.py:135-147):
an unconditional `update_item SET expires_at`, which creates a bare item
when the key is absent. -/
def update_expires_at (store : Store) (pid : String) (e : Int) : Store :=
  fun q =>
    if q = pid then
      match store q with
      | some md => some { md with expires_at := e }
      | none => some ⟨none, none, none, none, e⟩
    else store q

/-- Rule name selection of the extend route (preview.py:311):
`metadata.get("eventbridge_rule_name") or f"tempus-cleanup-{preview_id}"`;
a falsy stored value falls back to the canonical name. -/
def ruleNameOf (md : Record) (pid : String) : String :=
  match md.eventbridge_rule_name with
  | some s => if s = "" then "tempus-cleanup-" ++ pid else s
  | none => "tempus-cleanup-" ++ pid

/-- Modelled from the spec: `EventBridgeService.reschedule_cleanup` is
called by the extend route (preview.py:312) but the method is absent from
the source tree.  Spec section 4.3: extend "reschedules the existing
`schedule_ref` (reuse if present, else derive the canonical name) to fire
at `new_expires_at`", and "rescheduling must replace any existing future
invocation atomically from the caller's point of view — no double-fire".
Modelled as overwriting the schedule entry stored under the given rule
name with the new invocation. -/
def reschedule_cleanup (s : Schedules) (pid ruleName : String) (t : Int) : Schedules :=
  fun n => if n = ruleName then some (pid, t) else s n

/-- Embeds the `extend_preview` route (preview.py:290-314): read the
record (404 when absent), compute
`new_expires_at = expires_at + additional_hours`, persist it, reschedule
the cleanup rule under the stored-or-canonical name, and return the new
expiry. -/
def extend_preview (store : Store) (sched : Schedules) (pid : String) (h : Int) :
    Except Unit (Store × Schedules × Int) :=
  match store pid with
  | none => .error ()
  | some md =>
    let newExp := md.expires_at + h
    let store1 := update_expires_at store pid newExp
    let sched1 := reschedule_cleanup sched pid (ruleNameOf md pid) newExp
    .ok (store1, sched1, newExp)

/-- Runs `extend_preview` and keeps the updated table and schedules,
leaving them unchanged on a 404. -/
def extendStep (s : Store × Schedules) (pid : String) (h : Int) : Store × Schedules :=
  match extend_preview s.1 s.2 pid h with
  | .error () => s
  | .ok (st, sc, _) => (st, sc)

/-- Stored expiry of a preview, when its record exists. -/
def storedExpires (store : Store) (pid : String) : Option Int :=
  (store pid).map Record.expires_at

/-- Outcome of the `delete_preview` route: the response
(`.ok ("deleted", preview_id)` or `.error ()` for the 404), the updated
table and schedules, and whether the cleanup Lambda was invoked. -/
structure DeleteOut where
  result : Except Unit (String × String)
  store : Store
  sched : Schedules
  cleanupInvoked : Bool

/-- Embeds the `delete_preview` route (preview.py:263-287): read the
record (404 when absent, and in that case no cleanup is triggered);
otherwise invoke the cleanup Lambda asynchronously, best-effort delete
the stored EventBridge rule when truthy, delete the metadata record, and
return `{"status": "deleted", "preview_id": pid}`. -/
def delete_preview (store : Store) (sched : Schedules) (pid : String) : DeleteOut :=
  match store pid with
  | none => ⟨.error (), store, sched, false⟩
  | some md =>
    let sched1 :=
      match md.eventbridge_rule_name with
      | some s => if s ≠ "" then (fun n => if n = s then none else sched n) else sched
      | none => sched
    let store1 := fun q => if q = pid then none else store q
    ⟨.ok ("deleted", pid), store1, sched1, true⟩

/-- Embeds the 404-versus-status skeleton of the `get_preview` /
`preview_status` routes (preview.py:195-224, 317-346): absent record is a
404 (`.error ()`), otherwise the derived status label is returned; the
provider views `svc`/`tg` are inputs. -/
def get_preview_status (store : Store) (pid : String) (now : Int)
    (svc : SvcStatus) (tg : TgHealth) : Except Unit String :=
  match store pid with
  | none => .error ()
  | some md => .ok (build_status now md.expires_at svc tg)

/-! ### Concrete sample data used by witnesses -/

/-- A fully-populated metadata record for preview id `"p0"`, expiring at
instant 2. -/
def sampleRecord : Record :=
  ⟨some "svc-p0", some "tg-p0", some "rule-p0", some "tempus-cleanup-p0", 2⟩

/-- A table holding exactly the record of `"p0"`. -/
def store0 : Store := fun q => if q = "p0" then some sampleRecord else none

/-- Empty schedule state. -/
def sched0 : Schedules := fun _ => none

/-- Cleanup environment whose metadata record is absent and whose provider
calls all succeed. -/
def cleanEnvAbsent : CleanupEnv :=
  ⟨none, PRes.ok, ⟨PRes.ok, fun _ => 0, PRes.ok⟩, PRes.ok, PRes.ok,
    ⟨PRes.ok, PRes.ok, PRes.ok⟩, PRes.ok⟩

/-- Cleanup environment for `"p0"` in which the ECS teardown step raises a
hard (non-not-found) provider error and every other call succeeds. -/
def cleanEnvFail : CleanupEnv :=
  ⟨some sampleRecord, PRes.ok, ⟨PRes.clientError "Boom", fun _ => 0, PRes.ok⟩,
    PRes.ok, PRes.ok, ⟨PRes.ok, PRes.ok, PRes.ok⟩, PRes.ok⟩

/-! ## Theorems -/

/-- Bound on the drain loop: it adds at most 10 seconds per remaining
iteration to the running wait time. -/
theorem drainLoop_le (running : Nat → Nat) :
    ∀ fuel w, drainLoop running w fuel ≤ w + 10 * fuel := by
  intro fuel
  induction fuel with
  | zero => intro w; simp [drainLoop]
  | succ n ih =>
    intro w
    simp only [drainLoop]
    split
    · omega
    · have := ih (w + 10)
      omega

/-- A successful `addLoop` run returns a priority reached from the start
by fewer perturbation steps than it had attempts, and that priority is
free. -/
theorem addLoop_ok (taken : Nat → Bool) :
    ∀ fuel p q, addLoop taken p fuel = .ok q →
      ∃ k, k < fuel ∧ q = perturb^[k] p ∧ taken q = false := by
  intro fuel
  induction fuel with
  | zero => intro p q hq; simp [addLoop] at hq
  | succ n ih =>
    intro p q hq
    by_cases h : taken p
    · simp only [addLoop, h, if_true] at hq
      obtain ⟨k, hk, hq', hf⟩ := ih (perturb p) q hq
      exact ⟨k + 1, by omega, by
        rw [hq', Function.iterate_succ_apply], hf⟩
    · simp only [addLoop, h, if_false] at hq
      cases hq
      exact ⟨0, by omega, rfl, by simpa using h⟩

/-- When every priority in the perturbation orbit is taken, `addLoop`
exhausts its attempts and fails with the conflict error. -/
theorem addLoop_exhaust (taken : Nat → Bool) :
    ∀ fuel p, (∀ k, k < fuel → taken (perturb^[k] p) = true) →
      addLoop taken p fuel = .error "PriorityInUse" := by
  intro fuel
  induction fuel with
  | zero => intro p _; rfl
  | succ n ih =>
    intro p hp
    have h0 : taken p = true := by simpa using hp 0 (by omega)
    simp only [addLoop, h0, if_true]
    refine ih (perturb p) ?_
    intro k hk
    have := hp (k + 1) (by omega)
    rwa [Function.iterate_succ_apply] at this

/-- Every priority in the perturbation orbit of the derived initial
priority lies in the range [1000, 50000). -/
theorem orbit_range (h : Nat) :
    ∀ k, 1000 ≤ perturb^[k] (initPriority h) ∧ perturb^[k] (initPriority h) < 50000 := by
  intro k
  induction k with
  | zero =>
    have : h % 49000 < 49000 := Nat.mod_lt _ (by omega)
    simp only [Function.iterate_zero, id_eq, initPriority]
    omega
  | succ n ih =>
    rw [Function.iterate_succ_apply']
    have : (perturb^[n] (initPriority h) + 1) % 49000 < 49000 := Nat.mod_lt _ (by omega)
    simp only [perturb]
    omega

/-- C4 (counterexample): with the preview not yet expired, an active
workload, and a pool health summary that is present but the empty string
(hence not "healthy"), `_build_status` returns "active", while the claim's
priority list ("degraded when the pool health summary is present and not
healthy") demands "degraded"; `spec_status` follows the claim's words and
indeed yields "degraded" there. -/
theorem C4_counterexample :
    build_status 0 1 (some (some "ACTIVE")) (some (some "")) = "active" ∧
    spec_status 0 1 (some (some "ACTIVE")) (some (some "")) = "degraded" := by
  constructor <;> decide

/-- C4 (amended): the status label is a deterministic first-match function
of (now, expires_at, workload status, pool health summary): "expired" when
`expires_at ≤ now` (so the boundary `expires_at = now` is "expired"), else
"creating" when the workload status is absent or a draining/inactive
transitional state, else "degraded" when the pool health summary is
present, NON-EMPTY and not "healthy", else "active". -/
theorem C4_status_derivation (now expires : Int) (svc : SvcStatus) (tg : TgHealth) :
    (expires ≤ now → build_status now expires svc tg = "expired") ∧
    (now < expires →
      (svc = none ∨ svc = some none ∨ svc = some (some "DRAINING") ∨
        svc = some (some "INACTIVE")) →
      build_status now expires svc tg = "creating") ∧
    (now < expires → svcCreating svc = false →
      ∀ s, tg = some (some s) → s ≠ "" → s ≠ "healthy" →
        build_status now expires svc tg = "degraded") ∧
    (now < expires → svcCreating svc = false → tgDegraded tg = false →
      build_status now expires svc tg = "active") := by
  refine ⟨?_, ?_, ?_, ?_⟩
  · intro h
    simp [build_status, h]
  · intro h hc
    have hcr : svcCreating svc = true := by
      rcases hc with h' | h' | h' | h' <;> subst h' <;> rfl
    simp [build_status, not_le.mpr h, hcr]
  · intro h hc s hs h1 h2
    subst hs
    have hd : tgDegraded (some (some s)) = true := by
      simp [tgDegraded, h1, h2]
    simp [build_status, not_le.mpr h, hc, hd]
  · intro h hc hd
    simp [build_status, not_le.mpr h, hc, hd]

/-- C4 (witness): the amended derivation applied at a concrete healthy
state yields "active". -/
theorem C4_status_witness :
    build_status 0 10 (some (some "ACTIVE")) (some (some "healthy")) = "active" :=
  (C4_status_derivation 0 10 (some (some "ACTIVE")) (some (some "healthy"))).2.2.2
    (by decide) (by decide) (by decide)

/-- C9: `delete_ecs_service` drains capacity first and polls in a bounded
loop (10-second interval, 30 iterations, so at most a 300-second wait),
after which the force delete is attempted regardless of the remaining
running count; a `ServiceNotFoundException` from either the capacity
update or the delete is treated as success. -/
theorem C9_drain_bounded_force_delete (env : EcsDelEnv) :
    (delete_ecs_service env).waited ≤ 300 ∧
    (env.updateRes = PRes.ok → (delete_ecs_service env).deleteAttempted = true) ∧
    (env.updateRes = PRes.clientError "ServiceNotFoundException" →
      (delete_ecs_service env).result = .ok ()) ∧
    (env.updateRes = PRes.ok →
      env.deleteRes = PRes.clientError "ServiceNotFoundException" →
      (delete_ecs_service env).result = .ok ()) := by
  obtain ⟨u, running, d⟩ := env
  have hw : drainLoop running 0 30 ≤ 300 := by
    have := drainLoop_le running 30 0
    omega
  refine ⟨?_, ?_, ?_, ?_⟩
  · cases u with
    | ok =>
      cases d with
      | ok => simpa [delete_ecs_service] using hw
      | clientError c =>
        simp only [delete_ecs_service]
        split <;> simpa using hw
    | clientError c =>
      simp only [delete_ecs_service]
      split <;> simp
  · intro h
    simp only at h
    subst h
    cases d with
    | ok => rfl
    | clientError c =>
      simp only [delete_ecs_service]
      split <;> rfl
  · intro h
    simp only at h
    subst h
    simp [delete_ecs_service]
  · intro h1 h2
    simp only at h1 h2
    subst h1
    subst h2
    simp [delete_ecs_service]

/-- C9 (witness): with a workload that never reports zero running tasks,
the drain wait still terminates within the cap and the force delete is
attempted. -/
theorem C9_witness :
    (delete_ecs_service ⟨PRes.ok, (fun _ => 1), PRes.ok⟩).waited ≤ 300 ∧
    (delete_ecs_service ⟨PRes.ok, (fun _ => 1), PRes.ok⟩).deleteAttempted = true :=
  ⟨(C9_drain_bounded_force_delete ⟨PRes.ok, (fun _ => 1), PRes.ok⟩).1,
    (C9_drain_bounded_force_delete ⟨PRes.ok, (fun _ => 1), PRes.ok⟩).2.1 rfl⟩

/-- C10: an event whose `preview_id` is missing or empty makes the cleanup
handler return a structured 400 outcome with no metadata read, no
teardown step, no deletion, and an unchanged metadata record. -/
theorem C10_missing_id_rejected (env : CleanupEnv) :
    handler none env = ⟨400, [], [], env.metadata⟩ ∧
    handler (some "") env = ⟨400, [], [], env.metadata⟩ := by
  constructor
  · rfl
  · simp [handler]

/-- C3: invoking the cleanup handler on an id whose metadata record is
absent is a success no-op: it returns 200, records no errors, attempts no
teardown step (only the metadata read), and never errors. -/
theorem C3_absent_record_noop (pid : String) (env : CleanupEnv)
    (h1 : pid ≠ "") (h2 : env.metaReadRes = PRes.ok) (h3 : env.metadata = none) :
    handler (some pid) env = ⟨200, [], [Step.metaRead], none⟩ := by
  obtain ⟨m, mr, e, r, t, eb, d⟩ := env
  simp only at h2 h3
  subst h2
  subst h3
  simp [handler, h1]

/-- C3 (witness): the no-op at the concrete id `"p0"` with the record
already gone — the state a second invocation after a completed cleanup
observes. -/
theorem C3_witness :
    handler (some "p0") cleanEnvAbsent = ⟨200, [], [Step.metaRead], none⟩ :=
  C3_absent_record_noop "p0" cleanEnvAbsent (by decide) rfl rfl

/-- A number that is 200 or 207 by an if is one of 200 and 207. -/
theorem iteStatus (c : Prop) [Decidable c] :
    (if c then (200 : Nat) else 207) = 200 ∨ (if c then (200 : Nat) else 207) = 207 := by
  by_cases h : c <;> simp [h]

/-- C2: the cleanup handler always returns a structured outcome (status
code 200, 207, 400 or 500 — it never raises past its own boundary); when
the record exists, the metadata deletion is attempted regardless of the
other steps' outcomes; the status is 207 carrying the collected failed
steps exactly when some step failed, 200 otherwise; each teardown step
with a truthy reference is attempted whatever the other steps' provider
results are; and the provider "not found" conditions of every teardown
step are normalized to success. -/
theorem C2_cleanup_structured (pid : String) (env : CleanupEnv) (md : Record) :
    (∀ po : Option String,
      (handler po env).statusCode = 200 ∨ (handler po env).statusCode = 207 ∨
      (handler po env).statusCode = 400 ∨ (handler po env).statusCode = 500) ∧
    (pid ≠ "" → env.metaReadRes = PRes.ok → env.metadata = some md →
      Step.ddbDelete ∈ (handler (some pid) env).trace) ∧
    (pid ≠ "" → env.metaReadRes = PRes.ok → env.metadata = some md →
      (handler (some pid) env).statusCode =
        (if (handler (some pid) env).errors.isEmpty then 200 else 207)) ∧
    (pid ≠ "" → env.metaReadRes = PRes.ok → env.metadata = some md →
      truthy md.service_arn = true → Step.ecsDelete ∈ (handler (some pid) env).trace) ∧
    (pid ≠ "" → env.metaReadRes = PRes.ok → env.metadata = some md →
      truthy md.listener_rule_arn = true →
      Step.ruleDelete ∈ (handler (some pid) env).trace) ∧
    (pid ≠ "" → env.metaReadRes = PRes.ok → env.metadata = some md →
      truthy md.target_group_arn = true →
      Step.tgDelete ∈ (handler (some pid) env).trace) ∧
    delete_listener_rule (PRes.clientError "RuleNotFound") = .ok () ∧
    delete_target_group (PRes.clientError "TargetGroupNotFound") = .ok () ∧
    (∀ x y, delete_eventbridge_rule ⟨PRes.clientError "ResourceNotFoundException", x, y⟩ = .ok ()) ∧
    (∀ x y, delete_eventbridge_rule ⟨PRes.clientError "ValidationException", x, y⟩ = .ok ()) ∧
    (∀ r, (delete_dynamodb_record r).2 = .ok ()) ∧
    (∀ e : EcsDelEnv, e.updateRes = PRes.clientError "ServiceNotFoundException" →
      (delete_ecs_service e).result = .ok ()) := by
  obtain ⟨m, mr, ecs, rres, tres, ebe, dres⟩ := env
  refine ⟨?_, ?_, ?_, ?_, ?_, ?_, rfl, rfl, fun x y => rfl, fun x y => rfl, ?_, ?_⟩
  · intro po
    cases po with
    | none => simp [handler]
    | some p =>
      by_cases hp : p = ""
      · subst hp; simp [handler]
      · cases mr with
        | clientError c => simp [handler, hp]
        | ok =>
          cases m with
          | none => simp [handler, hp]
          | some md' =>
            simp only [handler]
            rw [if_neg hp]
            exact (iteStatus _).imp id Or.inl
  · intro h1 h2 h3
    simp only at h2 h3
    subst h2; subst h3
    cases dres <;> simp [handler, h1, delete_dynamodb_record]
  · intro h1 h2 h3
    simp only at h2 h3
    subst h2; subst h3
    simp [handler, h1]
  · intro h1 h2 h3 h4
    simp only at h2 h3
    subst h2; subst h3
    cases hres : (delete_ecs_service ecs).result <;> simp [handler, h1, h4, hres]
  · intro h1 h2 h3 h4
    simp only at h2 h3
    subst h2; subst h3
    cases hres : delete_listener_rule rres <;> simp [handler, h1, h4, hres]
  · intro h1 h2 h3 h4
    simp only at h2 h3
    subst h2; subst h3
    cases hres : delete_target_group tres <;> simp [handler, h1, h4, hres]
  · intro r
    cases r <;> rfl
  · intro e he
    obtain ⟨u, running, d⟩ := e
    simp only at he
    subst he
    simp [delete_ecs_service]

/-- C2 (witness): at the concrete id `"p0"` with a hard ECS-step failure,
the handler reports 207 (multi-status, errors non-empty), and both the
target-group teardown and the metadata deletion were still attempted. -/
theorem C2_witness :
    Step.ddbDelete ∈ (handler (some "p0") cleanEnvFail).trace ∧
    (handler (some "p0") cleanEnvFail).statusCode =
      (if (handler (some "p0") cleanEnvFail).errors.isEmpty then 200 else 207) ∧
    Step.tgDelete ∈ (handler (some "p0") cleanEnvFail).trace :=
  ⟨(C2_cleanup_structured "p0" cleanEnvFail sampleRecord).2.1 (by decide) rfl rfl,
    (C2_cleanup_structured "p0" cleanEnvFail sampleRecord).2.2.1 (by decide) rfl rfl,
    (C2_cleanup_structured "p0" cleanEnvFail sampleRecord).2.2.2.2.2.1 (by decide) rfl rfl rfl⟩

/-- C8: the routing-rule priority is derived deterministically from the
preview id's hash into [1000, 50000); on a conflict the priority is
deterministically perturbed, every perturbed value stays in the range,
and at most 10 creation attempts are made; when all 10 attempts collide,
the step fails hard with the conflict error, and `create` then reports a
provisioning failure (and has compensated the compute/routing resources
created before the rule-binding step). -/
theorem C8_priority_retry (taken : Nat → Bool) (h : Nat) :
    (1000 ≤ initPriority h ∧ initPriority h < 50000) ∧
    (∀ k, 1000 ≤ perturb^[k] (initPriority h) ∧ perturb^[k] (initPriority h) < 50000) ∧
    (∀ q, _add_listener_rule taken h = .ok q →
      ∃ k, k < 10 ∧ q = perturb^[k] (initPriority h) ∧ taken q = false ∧
        1000 ≤ q ∧ q < 50000) ∧
    ((∀ k, k < 10 → taken (perturb^[k] (initPriority h)) = true) →
      _add_listener_rule taken h = .error "PriorityInUse") ∧
    (∀ (pid dns : String) (now ttl : Int),
      (∀ k, k < 10 → taken (perturb^[k] (initPriority h)) = true) →
      create_preview ⟨false, false, false, taken, h, false, false⟩ pid dns now ttl =
        (.error ("Failed to create preview environment: " ++ "PriorityInUse"),
          emptyResources)) := by
  refine ⟨?_, orbit_range h, ?_, ?_, ?_⟩
  · simpa using orbit_range h 0
  · intro q hq
    obtain ⟨k, hk, hq', hf⟩ := addLoop_ok taken 10 (initPriority h) q hq
    refine ⟨k, hk, hq', hf, ?_, ?_⟩
    · rw [hq']; exact (orbit_range h k).1
    · rw [hq']; exact (orbit_range h k).2
  · intro hall
    exact addLoop_exhaust taken 10 (initPriority h) hall
  · intro pid dns now ttl hall
    have he : _add_listener_rule taken h = .error "PriorityInUse" :=
      addLoop_exhaust taken 10 (initPriority h) hall
    simp [create_preview, create_preview_service, he, _cleanup_on_failure,
      emptyResources]

/-- C8 (witness): with every priority reported in use the step exhausts
its 10 attempts and fails with the conflict error; the derived initial
priority for hash 0 is in range. -/
theorem C8_witness :
    (1000 ≤ initPriority 0 ∧ initPriority 0 < 50000) ∧
    _add_listener_rule (fun _ => true) 0 = .error "PriorityInUse" :=
  ⟨(C8_priority_retry (fun _ => true) 0).1,
    (C8_priority_retry (fun _ => true) 0).2.2.2.1 (fun _ _ => rfl)⟩

/-- C1: evaluation of `create` at concrete inputs.  Success path (no
fault): the metadata record is persisted with all four sub-resource
references and the response carries the id, the URL and
`expires_at = now + ttl`.  Failing input (fault injected at the
schedule-cleanup step, after the compute/routing step succeeded): the
route's exception handler deletes only the EventBridge rule and the
metadata record, so the ECS service, the target group and the listener
rule remain provisioned — contradicting the zero-trace/compensation
requirement and the route's own comment that ECS cleanup is handled (it
is only for failures inside `create_preview_service`). -/
theorem C1_schedule_fault_orphans :
    (create_preview ⟨false, false, false, (fun _ => false), 0, true, false⟩
        "p0" "alb.example.com" 0 2).1 =
      .error "Failed to create preview environment: ScheduleCleanupFailed" ∧
    (create_preview ⟨false, false, false, (fun _ => false), 0, true, false⟩
        "p0" "alb.example.com" 0 2).2 =
      ⟨true, true, true, false, none⟩ ∧
    (create_preview ⟨false, false, false, (fun _ => false), 0, false, false⟩
        "p0" "alb.example.com" 0 2).1 =
      .ok ("p0", "http://alb.example.com/preview-p0", 2) ∧
    (create_preview ⟨false, false, false, (fun _ => false), 0, false, false⟩
        "p0" "alb.example.com" 0 2).2 =
      ⟨true, true, true, true,
        some ⟨some "svc-p0", some "tg-p0", some "rule-p0", some "tempus-cleanup-p0", 2⟩⟩ := by
  refine ⟨rfl, rfl, rfl, rfl⟩

/-- C5: when the record exists, `delete` removes it, returns
`("deleted", preview_id)`, and triggers the cleanup invocation; an
immediately following `get_status` on the same id is a 404 whatever the
providers report (so regardless of whether physical teardown completed);
on an id with no record `delete` is a 404, triggers no cleanup, and
leaves the table unchanged. -/
theorem C5_delete_then_404 (store : Store) (sched : Schedules) (pid : String)
    (md : Record) (h : store pid = some md) :
    (delete_preview store sched pid).result = .ok ("deleted", pid) ∧
    (delete_preview store sched pid).cleanupInvoked = true ∧
    (∀ (now : Int) (svc : SvcStatus) (tg : TgHealth),
      get_preview_status (delete_preview store sched pid).store pid now svc tg =
        .error ()) ∧
    (∀ q, store q = none →
      (delete_preview store sched q).result = .error () ∧
      (delete_preview store sched q).cleanupInvoked = false ∧
      (delete_preview store sched q).store = store) := by
  refine ⟨?_, ?_, ?_, ?_⟩
  · simp [delete_preview, h]
  · simp [delete_preview, h]
  · intro now svc tg
    simp [delete_preview, h, get_preview_status]
  · intro q hq
    refine ⟨?_, ?_, ?_⟩ <;> simp [delete_preview, hq]

/-- C5 (witness): deleting the stored preview `"p0"` answers "deleted"
and the immediate status read is a 404. -/
theorem C5_witness :
    (delete_preview store0 sched0 "p0").result = .ok ("deleted", "p0") ∧
    get_preview_status (delete_preview store0 sched0 "p0").store "p0" 0 none none =
      .error () :=
  ⟨(C5_delete_then_404 store0 sched0 "p0" sampleRecord rfl).1,
    (C5_delete_then_404 store0 sched0 "p0" sampleRecord rfl).2.2.1 0 none none⟩

/-- C6: `extend` is additive to the currently stored expiry — the new
stored `expires_at` is the old one plus the requested hours — and two
successive extensions by `h1` and `h2` leave the same stored expiry as a
single extension by `h1 + h2`. -/
theorem C6_extend_additive (store : Store) (sched : Schedules) (pid : String)
    (md : Record) (h1 h2 : Int) (hmd : store pid = some md) :
    storedExpires (extendStep (store, sched) pid h1).1 pid =
      some (md.expires_at + h1) ∧
    storedExpires (extendStep (extendStep (store, sched) pid h1) pid h2).1 pid =
      some (md.expires_at + (h1 + h2)) ∧
    storedExpires (extendStep (store, sched) pid (h1 + h2)).1 pid =
      some (md.expires_at + (h1 + h2)) := by
  refine ⟨?_, ?_, ?_⟩
  · simp [extendStep, extend_preview, hmd, update_expires_at, storedExpires]
  · simp [extendStep, extend_preview, hmd, update_expires_at, storedExpires]
    omega
  · simp [extendStep, extend_preview, hmd, update_expires_at, storedExpires]

/-- C6 (witness): extending `"p0"` (stored expiry 2) by 1 then by 2 gives
stored expiry 5, as does a single extension by 3. -/
theorem C6_witness :
    storedExpires (extendStep (extendStep (store0, sched0) "p0" 1) "p0" 2).1 "p0" =
      some 5 ∧
    storedExpires (extendStep (store0, sched0) "p0" (1 + 2)).1 "p0" = some 5 :=
  ⟨(C6_extend_additive store0 sched0 "p0" sampleRecord 1 2 rfl).2.1,
    (C6_extend_additive store0 sched0 "p0" sampleRecord 1 2 rfl).2.2⟩

/-- C7: after a successful `extend(id, h)` the schedule entry under the
preview's rule name (the stored name when truthy, else the canonical
`tempus-cleanup-{id}`) carries exactly the new expiry; no schedule entry
for this preview fires at the old expiry any more; and assuming the
preview's only schedule entry before the call was under that rule name,
it is still its only one afterwards, at the new expiry — replacement
without double-fire.  The reschedule itself is modelled from the spec
because `reschedule_cleanup` is absent from the source tree. -/
theorem C7_reschedule_replaces (store : Store) (sched : Schedules) (pid : String)
    (md : Record) (h : Int) (hmd : store pid = some md) (hh : 1 ≤ h)
    (honly : ∀ n p t, sched n = some (p, t) → p = pid → n = ruleNameOf md pid) :
    ∀ st sc e, extend_preview store sched pid h = .ok (st, sc, e) →
      sc (ruleNameOf md pid) = some (pid, md.expires_at + h) ∧
      (∀ n, sc n ≠ some (pid, md.expires_at)) ∧
      (∀ n p t, sc n = some (p, t) → p = pid →
        n = ruleNameOf md pid ∧ t = md.expires_at + h) := by
  intro st sc e heq
  simp only [extend_preview, hmd, Except.ok.injEq, Prod.mk.injEq] at heq
  obtain ⟨-, hsc, -⟩ := heq
  subst hsc
  refine ⟨?_, ?_, ?_⟩
  · simp [reschedule_cleanup]
  · intro n
    by_cases hn : n = ruleNameOf md pid
    · subst hn
      simp only [reschedule_cleanup, if_pos rfl, ne_eq]
      intro hc
      injection hc with hc1
      injection hc1 with hc2 hc3
      omega
    · simp only [reschedule_cleanup, if_neg hn, ne_eq]
      intro hc
      exact hn (honly n pid md.expires_at hc rfl)
  · intro n p t hnp hp
    rw [hp] at hnp
    by_cases hn : n = ruleNameOf md pid
    · subst hn
      simp only [reschedule_cleanup, if_pos rfl] at hnp
      injection hnp with hc1
      injection hc1 with hc2 hc3
      exact ⟨rfl, hc3.symm⟩
    · simp only [reschedule_cleanup, if_neg hn] at hnp
      exact absurd (honly n pid t hnp rfl) hn

/-- C7 (witness): with no prior schedules, extending `"p0"` by 1 puts the
single invocation at the new expiry 3 under the stored rule name, and
nothing is left scheduled at the old expiry 2. -/
theorem C7_witness :
    reschedule_cleanup sched0 "p0" (ruleNameOf sampleRecord "p0")
        (sampleRecord.expires_at + 1) (ruleNameOf sampleRecord "p0") =
      some ("p0", sampleRecord.expires_at + 1) ∧
    reschedule_cleanup sched0 "p0" (ruleNameOf sampleRecord "p0")
        (sampleRecord.expires_at + 1) "tempus-cleanup-p0" ≠
      some ("p0", sampleRecord.expires_at) :=
  ⟨(C7_reschedule_replaces store0 sched0 "p0" sampleRecord 1 rfl (by decide)
      (fun n p t hm _ => by simp [sched0] at hm)
      (update_expires_at store0 "p0" (sampleRecord.expires_at + 1))
      (reschedule_cleanup sched0 "p0" (ruleNameOf sampleRecord "p0")
        (sampleRecord.expires_at + 1))
      (sampleRecord.expires_at + 1) rfl).1,
    (C7_reschedule_replaces store0 sched0 "p0" sampleRecord 1 rfl (by decide)
      (fun n p t hm _ => by simp [sched0] at hm)
      (update_expires_at store0 "p0" (sampleRecord.expires_at + 1))
      (reschedule_cleanup sched0 "p0" (ruleNameOf sampleRecord "p0")
        (sampleRecord.expires_at + 1))
      (sampleRecord.expires_at + 1) rfl).2.1 "tempus-cleanup-p0"⟩

end Tempus
